import Mathlib

/-!
Verification of `bin/sframe_clear_server.py` (SFrame repository).

The script parses two command-line options, opens a connection to a PROOF
server through the external `ROOT.TProof.Open` capability, invokes the remote
`ClearPackages()` operation, prints diagnostics, and maps the outcome to a
process exit code.  We embed `main` as a pure function of the external
capability's behaviour, returning the printed lines (a single stream: every
Python 2 `print` statement in the script writes to standard output), the trace
of external calls made, and the execution result (a returned exit code, or an
uncaught Python exception).
-/

namespace SFrameClearServer

/-- The session handle returned by `ROOT.TProof.Open`.  The script calls
`IsValid()` and `ClearPackages()` at most once each, so the handle's behaviour
is captured by the value each call would return. -/
structure TProof where
  IsValid : Bool
  ClearPackages : Int
deriving DecidableEq

/-- The external ROOT capability: `TProof.Open(server)` returns a handle or
nothing (Python `None`). -/
structure ROOTStub where
  Open : String → Option TProof

/-- Observable calls made to the external capability. -/
inductive Event
  | openSession (server : String)
  | clearPackages
deriving DecidableEq

/-- Python runtime errors the script can raise.  The only one reachable is the
`TypeError` from concatenating a `str` with a `list`. -/
inductive PyError
  | typeError
deriving DecidableEq

/-- How one execution of `main` ends: a `return` with an exit code, or an
uncaught exception. -/
inductive ExecResult
  | exit (code : Int)
  | raised (e : PyError)
deriving DecidableEq

/-- One execution of `main`: the lines printed to standard output, the trace
of calls to the external capability, and the final result. -/
structure Run where
  output : List String
  events : List Event
  result : ExecResult
deriving DecidableEq

/-- Embedding of `main()` from `bin/sframe_clear_server.py`, as a function of
the external capability `root`, the parsed `options.server` string and the
`unrec` list returned by the option parser.

Mirrors the source line by line:
* `if len( unrec ):` — prints `"WARNING:"`, then evaluates
  `"WARNING: Didn't recognise the following option(s): " + unrec`, which
  concatenates a `str` with a `list` and raises `TypeError` before the second
  `print` completes and before any connection is attempted;
* otherwise prints the opening line, calls `ROOT.TProof.Open( options.server )`;
* `if ( not proof ) or ( not proof.IsValid() ):` — error block, `return 255`
  (short-circuit: `IsValid` is not consulted when the handle is absent);
* `if proof.ClearPackages() != 0:` — error block, `return 255`;
* else success line, `return 0`. -/
def main (root : ROOTStub) (server : String) (unrec : List String) : Run :=
  if unrec.length ≠ 0 then
    { output := ["WARNING:"]
      events := []
      result := .raised .typeError }
  else
    let out0 := ["Opening connection to PROOF server: " ++ server]
    match root.Open server with
    | none =>
        { output := out0 ++
            ["ERROR:",
             "ERROR: Coulnd't connect to PROOF server: " ++ server,
             "ERROR:"]
          events := [.openSession server]
          result := .exit 255 }
    | some proof =>
        if proof.IsValid = false then
          { output := out0 ++
              ["ERROR:",
               "ERROR: Coulnd't connect to PROOF server: " ++ server,
               "ERROR:"]
            events := [.openSession server]
            result := .exit 255 }
        else if proof.ClearPackages ≠ 0 then
          { output := out0 ++
              ["ERROR:",
               "ERROR: There was a problem clearing the packages from server " ++ server,
               "ERROR:"]
            events := [.openSession server, .clearPackages]
            result := .exit 255 }
        else
          { output := out0 ++
              ["PAR packages cleared from server " ++ server]
            events := [.openSession server, .clearPackages]
            result := .exit 0 }

/-- The parsed options: the script registers a single `-s`/`--server` string
option with default `"localhost"`. -/
structure Options where
  server : String
deriving DecidableEq

/-- Modelled from the spec: the option parser (`optparse`, an external
library) — flags `-s SERVER` / `--server=SERVER` set the server address,
default `"localhost"`; remaining arguments are collected into the second
component of the returned pair. -/
def parseLoop : Options → List String → List String → Options × List String
  | opts, unrec, [] => (opts, unrec)
  | _, unrec, "-s" :: v :: rest => parseLoop { server := v } unrec rest
  | opts, unrec, arg :: rest =>
      if "--server=".isPrefixOf arg then
        parseLoop { server := arg.drop 9 } unrec rest
      else
        parseLoop opts (unrec ++ [arg]) rest

/-- Modelled from the spec: `parser.parse_args()` returns the parsed options
(server defaulting to `"localhost"`) and the list of remaining arguments. -/
def parse_args (argv : List String) : Options × List String :=
  parseLoop { server := "localhost" } [] argv

/-- The whole invocation: parse the command line, then run `main`'s body on
the parsed options. -/
def mainArgs (root : ROOTStub) (argv : List String) : Run :=
  let po := parse_args argv
  main root po.1.server po.2

/-- A printed line is a warning/error diagnostic message when it starts with
the marker followed by a space and message text (the bare three-line banner
markers `"WARNING:"` / `"ERROR:"` carry no message and are not themselves
diagnostics). -/
def isDiag (l : String) : Prop :=
  "WARNING: ".data <+: l.data ∨ "ERROR: ".data <+: l.data

instance (l : String) : Decidable (isDiag l) := by
  unfold isDiag; infer_instance

/-- Stub capability: every server yields a valid handle whose
`ClearPackages()` returns `0`. -/
def stubOk : ROOTStub :=
  { Open := fun _ => some { IsValid := true, ClearPackages := 0 } }

/-- Stub capability: every connection attempt returns an absent handle. -/
def stubNone : ROOTStub :=
  { Open := fun _ => none }

/-- Stub capability: every server yields a handle that reports itself
invalid. -/
def stubInvalid : ROOTStub :=
  { Open := fun _ => some { IsValid := false, ClearPackages := 0 } }

/-- Stub capability: valid handle, but `ClearPackages()` returns `1`. -/
def stubFailPos : ROOTStub :=
  { Open := fun _ => some { IsValid := true, ClearPackages := 1 } }

/-- Stub capability: valid handle, but `ClearPackages()` returns `-1`. -/
def stubFailNeg : ROOTStub :=
  { Open := fun _ => some { IsValid := true, ClearPackages := -1 } }

/-- Stub capability agreeing with `stubOk` on `"localhost"` but not on every
other server. -/
def stubOkElsewhere : ROOTStub :=
  { Open := fun s => if s = "other" then none else
      some { IsValid := true, ClearPackages := 0 } }

section PrefixLemmas

lemma prefix_append_iff_of_le {p c : List Char} (s : List Char)
    (h : p.length ≤ c.length) : p <+: c ++ s ↔ p <+: c := by
  rw [List.prefix_iff_eq_take, List.prefix_iff_eq_take,
    List.take_append_of_le_length h]

lemma not_prefix_append {p c : List Char} (s : List Char)
    (h : p.length ≤ c.length) (hn : ¬ p <+: c) : ¬ p <+: c ++ s :=
  fun hp => hn ((prefix_append_iff_of_le s h).mp hp)

lemma notDiag_opening (server : String) :
    ¬ isDiag ("Opening connection to PROOF server: " ++ server) := by
  rintro (h | h) <;> rw [String.data_append] at h
  · exact not_prefix_append _ (by decide) (by decide) h
  · exact not_prefix_append _ (by decide) (by decide) h

lemma notDiag_success (server : String) :
    ¬ isDiag ("PAR packages cleared from server " ++ server) := by
  rintro (h | h) <;> rw [String.data_append] at h
  · exact not_prefix_append _ (by decide) (by decide) h
  · exact not_prefix_append _ (by decide) (by decide) h

lemma errPrefix_of_append {msg : String} (server : String)
    (h : "ERROR: ".data <+: msg.data) :
    "ERROR: ".data <+: (msg ++ server).data := by
  rw [String.data_append]
  exact h.trans (List.prefix_append _ _)

end PrefixLemmas

/-- `line` contains `sub` as a substring. -/
def containsStr (line sub : String) : Prop :=
  ∃ pre post, line = pre ++ sub ++ post

/-- Running the script twice in sequence against the same external capability.
`main` creates all of its state (parser, options, handle) locally and writes
nothing global, so the two runs are independent applications of the same
function. -/
def runTwice (root : ROOTStub) (server : String) (unrec : List String) :
    Run × Run :=
  (main root server unrec, main root server unrec)

/-- C2: for every server string, if the capability returns an absent handle or
a handle whose validity check is false, `main` (with no unrecognized
arguments) returns exit code 255, prints the three-line error block containing
the server name, and the remote `ClearPackages` operation is never invoked. -/
theorem c2_connection_failure_exits_255 (root : ROOTStub) (server : String)
    (h : root.Open server = none ∨
      ∃ p, root.Open server = some p ∧ p.IsValid = false) :
    (main root server []).result = .exit 255 ∧
    ["ERROR:", "ERROR: Coulnd't connect to PROOF server: " ++ server, "ERROR:"]
      <:+: (main root server []).output ∧
    containsStr ("ERROR: Coulnd't connect to PROOF server: " ++ server) server ∧
    Event.clearPackages ∉ (main root server []).events := by
  rcases h with h | ⟨p, hp, hv⟩
  · refine ⟨?_, ?_, ⟨"ERROR: Coulnd't connect to PROOF server: ", "", by simp⟩, ?_⟩ <;>
      simp [main, h]
    exact ⟨["Opening connection to PROOF server: " ++ server], [], by simp⟩
  · refine ⟨?_, ?_, ⟨"ERROR: Coulnd't connect to PROOF server: ", "", by simp⟩, ?_⟩ <;>
      simp [main, hp, hv]
    exact ⟨["Opening connection to PROOF server: " ++ server], [], by simp⟩

theorem c2_witness :
    (main stubNone "pc1.cern.ch" []).result = .exit 255 ∧
    ["ERROR:", "ERROR: Coulnd't connect to PROOF server: " ++ "pc1.cern.ch",
      "ERROR:"] <:+: (main stubNone "pc1.cern.ch" []).output ∧
    containsStr ("ERROR: Coulnd't connect to PROOF server: " ++ "pc1.cern.ch")
      "pc1.cern.ch" ∧
    Event.clearPackages ∉ (main stubNone "pc1.cern.ch" []).events :=
  c2_connection_failure_exits_255 stubNone "pc1.cern.ch" (Or.inl rfl)

/-- C3: for every server string, if the capability returns a valid handle and
`ClearPackages()` returns `0`, `main` returns exit code 0 and prints the
success line containing the server name. -/
theorem c3_success_exits_0 (root : ROOTStub) (server : String) (p : TProof)
    (h1 : root.Open server = some p) (h2 : p.IsValid = true)
    (h3 : p.ClearPackages = 0) :
    (main root server []).result = .exit 0 ∧
    ("PAR packages cleared from server " ++ server)
      ∈ (main root server []).output ∧
    containsStr ("PAR packages cleared from server " ++ server) server := by
  refine ⟨?_, ?_, ⟨"PAR packages cleared from server ", "", by simp⟩⟩ <;>
    simp [main, h1, h2, h3]

theorem c3_witness :
    (main stubOk "localhost" []).result = .exit 0 ∧
    ("PAR packages cleared from server " ++ "localhost")
      ∈ (main stubOk "localhost" []).output ∧
    containsStr ("PAR packages cleared from server " ++ "localhost")
      "localhost" :=
  c3_success_exits_0 stubOk "localhost"
    { IsValid := true, ClearPackages := 0 } rfl rfl rfl

/-- C4: if the handle is valid but `ClearPackages()` returns any nonzero
integer, `main` returns exit code 255 and prints the three-line error block
containing the server name. -/
theorem c4_operation_failure_exits_255 (root : ROOTStub) (server : String)
    (p : TProof) (h1 : root.Open server = some p) (h2 : p.IsValid = true)
    (h3 : p.ClearPackages ≠ 0) :
    (main root server []).result = .exit 255 ∧
    ["ERROR:",
     "ERROR: There was a problem clearing the packages from server " ++ server,
     "ERROR:"] <:+: (main root server []).output ∧
    containsStr
      ("ERROR: There was a problem clearing the packages from server " ++
        server) server := by
  refine ⟨?_, ?_,
    ⟨"ERROR: There was a problem clearing the packages from server ", "",
      by simp⟩⟩ <;> simp [main, h1, h2, h3]
  exact ⟨["Opening connection to PROOF server: " ++ server], [], by simp⟩

theorem c4_witness :
    ((main stubFailPos "localhost" []).result = .exit 255 ∧
     ["ERROR:",
      "ERROR: There was a problem clearing the packages from server " ++
        "localhost",
      "ERROR:"] <:+: (main stubFailPos "localhost" []).output ∧
     containsStr
       ("ERROR: There was a problem clearing the packages from server " ++
         "localhost") "localhost") ∧
    ((main stubFailNeg "localhost" []).result = .exit 255 ∧
     ["ERROR:",
      "ERROR: There was a problem clearing the packages from server " ++
        "localhost",
      "ERROR:"] <:+: (main stubFailNeg "localhost" []).output ∧
     containsStr
       ("ERROR: There was a problem clearing the packages from server " ++
         "localhost") "localhost") :=
  ⟨c4_operation_failure_exits_255 stubFailPos "localhost"
      { IsValid := true, ClearPackages := 1 } rfl rfl (by decide),
   c4_operation_failure_exits_255 stubFailNeg "localhost"
      { IsValid := true, ClearPackages := -1 } rfl rfl (by decide)⟩

/-- C5: whenever `main` returns an exit code at all, that code is exactly 0 or
exactly 255 (the execution that raises the `TypeError` returns no code). -/
theorem c5_exit_codes (root : ROOTStub) (server : String)
    (unrec : List String) (c : Int)
    (h : (main root server unrec).result = .exit c) : c = 0 ∨ c = 255 := by
  unfold main at h
  by_cases hu : unrec.length ≠ 0
  · simp [hu] at h
  · rcases hO : root.Open server with _ | p <;> simp [hu, hO] at h
    · exact Or.inr h.symm
    · by_cases hv : p.IsValid = false
      · simp [hv] at h
        exact Or.inr h.symm
      · by_cases hc : p.ClearPackages = 0 <;> simp [hv, hc] at h
        · exact Or.inl h.symm
        · exact Or.inr h.symm

theorem c5_witness :
    (main stubOk "localhost" []).result = .exit 0 ∧
    ((0 : Int) = 0 ∨ (0 : Int) = 255) :=
  ⟨rfl, c5_exit_codes stubOk "localhost" [] 0 rfl⟩

/-- C6: with no command-line flags, the server string passed to the
session-open capability is `"localhost"`: the first external call is
`openSession "localhost"`, and no session is opened to any other server. -/
theorem c6_default_server_localhost (root : ROOTStub) :
    (mainArgs root []).events.head? = some (.openSession "localhost") ∧
    ∀ s, Event.openSession s ∈ (mainArgs root []).events → s = "localhost" := by
  rcases hO : root.Open "localhost" with _ | p
  · constructor <;> simp [mainArgs, parse_args, parseLoop, main, hO]
  · by_cases hv : p.IsValid = false
    · constructor <;> simp [mainArgs, parse_args, parseLoop, main, hO, hv]
    · by_cases hc : p.ClearPackages ≠ 0 <;>
        constructor <;> simp [mainArgs, parse_args, parseLoop, main, hO, hv, hc]

/-- C7: two consecutive invocations against a capability that yields a valid
handle with `ClearPackages() = 0` both exit with code 0, and the second run is
identical to the first — `main` keeps no state between calls. -/
theorem c7_idempotent (root : ROOTStub) (server : String) (p : TProof)
    (h1 : root.Open server = some p) (h2 : p.IsValid = true)
    (h3 : p.ClearPackages = 0) :
    (runTwice root server []).1.result = .exit 0 ∧
    (runTwice root server []).2.result = .exit 0 ∧
    (runTwice root server []).2 = (runTwice root server []).1 := by
  refine ⟨?_, ?_, rfl⟩ <;> simp [runTwice, main, h1, h2, h3]

theorem c7_witness :
    (runTwice stubOk "localhost" []).1.result = .exit 0 ∧
    (runTwice stubOk "localhost" []).2.result = .exit 0 ∧
    (runTwice stubOk "localhost" []).2 = (runTwice stubOk "localhost" []).1 :=
  c7_idempotent stubOk "localhost"
    { IsValid := true, ClearPackages := 0 } rfl rfl rfl

/-- C9: with a non-empty unrecognized-argument list, building the warning
message concatenates a `str` with a `list`, raising `TypeError`; the event
trace is empty, so the session-open call is never reached. -/
theorem c9_typeError_before_open (root : ROOTStub) (server : String)
    (unrec : List String) (h : unrec ≠ []) :
    (main root server unrec).result = .raised .typeError ∧
    (main root server unrec).events = [] := by
  have hu : unrec.length ≠ 0 := by simpa using h
  constructor <;> simp [main, hu]

theorem c9_witness :
    (main stubOk "localhost" ["--bogus"]).result = .raised .typeError ∧
    (main stubOk "localhost" ["--bogus"]).events = [] :=
  c9_typeError_before_open stubOk "localhost" ["--bogus"] (by simp)

/-- C1 (code evaluation at the failing input): with a non-empty unrecognized
list, the script prints only the opening `"WARNING:"` banner line, makes no
external call, and raises `TypeError` instead of proceeding to the connection
attempt. -/
theorem c1_typeError_eval :
    main stubOk "localhost" ["--bogus"] =
      { output := ["WARNING:"], events := [], result := .raised .typeError } :=
  rfl

/-- C10: `main` is deterministic and depends on the capability only through
its response for the requested server: equal responses give identical printed
output, event trace and exit code. -/
theorem c10_deterministic (root root' : ROOTStub) (server : String)
    (unrec : List String) (h : root.Open server = root'.Open server) :
    main root server unrec = main root' server unrec := by
  unfold main
  rw [h]

theorem c10_witness :
    main stubOk "localhost" [] = main stubOkElsewhere "localhost" [] :=
  c10_deterministic stubOk stubOkElsewhere "localhost" []
    (by simp [stubOk, stubOkElsewhere])

section Shapes

lemma main_crash (root : ROOTStub) (server : String) (unrec : List String)
    (hu : unrec.length ≠ 0) :
    main root server unrec =
      { output := ["WARNING:"], events := [], result := .raised .typeError } := by
  simp [main, hu]

lemma main_connfail_none (root : ROOTStub) (server : String)
    (h : root.Open server = none) :
    main root server [] =
      { output := ["Opening connection to PROOF server: " ++ server, "ERROR:",
          "ERROR: Coulnd't connect to PROOF server: " ++ server, "ERROR:"]
        events := [.openSession server]
        result := .exit 255 } := by
  simp [main, h]

lemma main_connfail_invalid (root : ROOTStub) (server : String) (p : TProof)
    (h : root.Open server = some p) (hv : p.IsValid = false) :
    main root server [] =
      { output := ["Opening connection to PROOF server: " ++ server, "ERROR:",
          "ERROR: Coulnd't connect to PROOF server: " ++ server, "ERROR:"]
        events := [.openSession server]
        result := .exit 255 } := by
  simp [main, h, hv]

lemma main_opfail (root : ROOTStub) (server : String) (p : TProof)
    (h : root.Open server = some p) (hv : p.IsValid = true)
    (hc : p.ClearPackages ≠ 0) :
    main root server [] =
      { output := ["Opening connection to PROOF server: " ++ server, "ERROR:",
          "ERROR: There was a problem clearing the packages from server " ++
            server, "ERROR:"]
        events := [.openSession server, .clearPackages]
        result := .exit 255 } := by
  simp [main, h, hv, hc]

lemma main_ok (root : ROOTStub) (server : String) (p : TProof)
    (h : root.Open server = some p) (hv : p.IsValid = true)
    (hc : p.ClearPackages = 0) :
    main root server [] =
      { output := ["Opening connection to PROOF server: " ++ server,
          "PAR packages cleared from server " ++ server]
        events := [.openSession server, .clearPackages]
        result := .exit 0 } := by
  simp [main, h, hv, hc]

end Shapes

/-- Line `i` of `out` (equal to `l`) sits in the middle of a three-line
banner: `l` starts with `"WARNING: "` or `"ERROR: "`, and the lines directly
before and after it are the corresponding bare marker. -/
def bannerAt (out : List String) (i : Nat) (l : String) : Prop :=
  1 ≤ i ∧ ∃ m,
    (("WARNING: ".data <+: l.data ∧ m = "WARNING:") ∨
     ("ERROR: ".data <+: l.data ∧ m = "ERROR:")) ∧
    out.get? (i - 1) = some m ∧ out.get? (i + 1) = some m

lemma bannerAt_of_no_diag (lines : List String) (i : Nat) (l : String)
    (hall : ∀ x ∈ lines, ¬ isDiag x)
    (h : lines.get? i = some l) (hd : isDiag l) : bannerAt lines i l :=
  absurd hd (hall l (List.get?_mem h))

lemma bannerAt_errblock (first mid : String) (i : Nat) (l : String)
    (hfirst : ¬ isDiag first)
    (hmid : "ERROR: ".data <+: mid.data)
    (h : ([first, "ERROR:", mid, "ERROR:"] : List String).get? i = some l)
    (hd : isDiag l) :
    bannerAt [first, "ERROR:", mid, "ERROR:"] i l := by
  match i with
  | 0 =>
      simp only [List.get?, Option.some.injEq] at h
      subst h
      exact absurd hd hfirst
  | 1 =>
      simp only [List.get?, Option.some.injEq] at h
      subst h
      exact absurd hd (by decide)
  | 2 =>
      simp only [List.get?, Option.some.injEq] at h
      subst h
      exact ⟨by norm_num, "ERROR:", Or.inr ⟨hmid, rfl⟩, rfl, rfl⟩
  | 3 =>
      simp only [List.get?, Option.some.injEq] at h
      subst h
      exact absurd hd (by decide)
  | n + 4 =>
      simp only [List.get?] at h
      exact Option.noConfusion h

/-- C8: every diagnostic message line `main` emits (a line starting with
`"WARNING: "` or `"ERROR: "`) appears in the single standard-output stream
wrapped in a three-line banner whose surrounding lines are the bare
`"WARNING:"` / `"ERROR:"` marker.  (The model's `output` field is the one
stream all Python 2 `print` statements of the script write to, i.e. standard
output.) -/
theorem c8_diagnostics_bannered (root : ROOTStub) (server : String)
    (unrec : List String) (i : Nat) (l : String)
    (h : (main root server unrec).output.get? i = some l)
    (hd : isDiag l) :
    bannerAt (main root server unrec).output i l := by
  rcases unrec with _ | ⟨u, us⟩
  · rcases hO : root.Open server with _ | p
    · rw [main_connfail_none root server hO] at h ⊢
      exact bannerAt_errblock _ _ i l (notDiag_opening server)
        (errPrefix_of_append server (by decide)) h hd
    · by_cases hv : p.IsValid = false
      · rw [main_connfail_invalid root server p hO hv] at h ⊢
        exact bannerAt_errblock _ _ i l (notDiag_opening server)
          (errPrefix_of_append server (by decide)) h hd
      · rw [Bool.not_eq_false] at hv
        by_cases hc : p.ClearPackages = 0
        · rw [main_ok root server p hO hv hc] at h ⊢
          refine bannerAt_of_no_diag _ i l ?_ h hd
          intro x hx
          simp only [List.mem_cons, List.not_mem_nil, or_false] at hx
          rcases hx with hx | hx
          · exact hx ▸ notDiag_opening server
          · exact hx ▸ notDiag_success server
        · rw [main_opfail root server p hO hv hc] at h ⊢
          exact bannerAt_errblock _ _ i l (notDiag_opening server)
            (errPrefix_of_append server (by decide)) h hd
  · rw [main_crash root server (u :: us) (by simp)] at h ⊢
    refine bannerAt_of_no_diag _ i l ?_ h hd
    intro x hx
    simp only [List.mem_cons, List.not_mem_nil, or_false] at hx
    exact hx ▸ (by decide : ¬ isDiag "WARNING:")

theorem c8_witness :
    bannerAt (main stubNone "srv" []).output 2
      ("ERROR: Coulnd't connect to PROOF server: " ++ "srv") :=
  c8_diagnostics_bannered stubNone "srv" [] 2
    ("ERROR: Coulnd't connect to PROOF server: " ++ "srv") rfl (by decide)

end SFrameClearServer
